import Mathlib

/-!
Shallow embedding of the Solar-MACH heliospheric constellation tool.

The repository's files under version control are the Streamlit UI layers
`app.py` and `flare_sketch.py`; the geometry engine (`backmapping`:
`HeliosphericConstellation`, the Parker-spiral model, the separation and
normalization arithmetic) is imported by both but its source is not part of
the checked-in tree.  Engine-level definitions below are therefore modelled
from the specification (each marked `Modelled from the spec:`); UI-level
definitions are translated from `app.py` / `flare_sketch.py` directly.

All angles are rationals (degrees); machine floats of the Python code are
modelled as exact rationals.
-/

namespace SolarMach

/-- Modelled from the spec: error taxonomy of section 7 (the `backmapping`
engine is not under the checked-in sources). -/
inductive EngineError where
  | invalidSolarWindSpeedError
  | invalidCoordinateError
  | invalidInputError
  | unknownBodyError (body : String)
  deriving DecidableEq, Repr

/-- Modelled from the spec: wrap-aware shortest-arc longitudinal separation
used by the Constellation Engine (sections 3 and 8); the `backmapping` module
holding it is not under the checked-in sources.  Both arguments are
Carrington longitudes in degrees. -/
def separation (a b : ℚ) : ℚ :=
  min |a - b| (360 - |a - b|)

/-- Modelled from the spec: Ω, the sidereal solar rotation rate, a fixed
constant of the Parker Spiral Model (section 4.2); expressed in degrees per
day. -/
def Omega : ℚ := 14.18

/-- Modelled from the spec: Parker-spiral longitude at radius `r` for a
source point at radius `r0`, longitude `lam0`, wind speed `v`
(section 4.2: λ(r) = λ₀ + (Ω/v) * (r₀ - r)); the `backmapping` module
holding it is not under the checked-in sources.  Degrees on the interface. -/
def parkerLon (v r0 lam0 r : ℚ) : ℚ :=
  lam0 + (Omega / v) * (r0 - r)

/-- Modelled from the spec: a field line rooted at a source point
(section 3, FieldLine); owned by the body that generated it. -/
structure FieldLine where
  r0 : ℚ
  lam0 : ℚ
  vsw : ℚ
  deriving DecidableEq, Repr

/-- Modelled from the spec: the Parker Spiral Model's constructor of a field
line (section 4.2); rejects `v ≤ 0` with `InvalidSolarWindSpeedError` and
never clamps the speed.  The `backmapping` module holding it is not under the
checked-in sources. -/
def buildFieldLine (r0 lam0 v : ℚ) : Except EngineError FieldLine :=
  if v ≤ 0 then .error .invalidSolarWindSpeedError
  else .ok ⟨r0, lam0, v⟩

/-- Modelled from the spec: canonical normalization of a Carrington
longitude into [0,360) (section 3 invariant, section 8); the `backmapping`
module holding it is not under the checked-in sources. -/
def normalizeLon (x : ℚ) : ℚ :=
  x - 360 * ⌊x / 360⌋

/-- Modelled from the spec: a resolved heliographic position returned by
the Ephemeris Adapter (section 4.1). -/
structure Position where
  radiusAU : ℚ
  lon : ℚ
  lat : ℚ
  deriving DecidableEq, Repr

/-- Modelled from the spec: a row of the ConstellationResult table
(section 3): a valid row per resolved body, or a failure-marker row per
unresolvable body. -/
inductive Row where
  | valid (body : String) (pos : Position) (vsw : Int)
  | failed (body : String)
  deriving DecidableEq, Repr

/-- The body name a row belongs to. -/
def Row.body : Row → String
  | .valid b _ _ => b
  | .failed b => b

/-- Whether a row is a valid (successfully resolved) row. -/
def Row.isValid : Row → Bool
  | .valid _ _ _ => true
  | .failed _ => false

/-- Modelled from the spec: outcome of `compute()` (section 4.3):
`Assembled` with the ordered table, or terminal `Failed` with an aggregate
error listing all per-body failures. -/
inductive Outcome where
  | Assembled (table : List Row)
  | Failed (errors : List String)
  deriving DecidableEq, Repr

/-- Modelled from the spec: per-body resolution step of `compute()`
(section 4.3): each body of the ordered input list is resolved through the
Ephemeris Adapter `resolve`; a failed body yields a failure-marker row in
place, never a dropped row.  The `backmapping` module holding it is not
under the checked-in sources. -/
def rowsOf (resolve : String → Option Position) (bodies : List (String × Int)) :
    List Row :=
  bodies.map fun p =>
    match resolve p.1 with
    | some pos => Row.valid p.1 pos p.2
    | none => Row.failed p.1

/-- Modelled from the spec: the aggregate error list carried by the
`Failed` state: the name of every body whose resolution failed, in input
order (section 4.3). -/
def aggregateErrors (resolve : String → Option Position)
    (bodies : List (String × Int)) : List String :=
  (rowsOf resolve bodies).filterMap fun r =>
    match r with
    | .failed b => some b
    | .valid _ _ _ => none

/-- Modelled from the spec: `compute()` of the Constellation Engine
(section 4.3): assembles the ordered table; transitions to `Assembled` only
if at least one body resolved, otherwise `Failed` with the aggregate error.
The `backmapping` module holding it is not under the checked-in sources. -/
def compute (resolve : String → Option Position)
    (bodies : List (String × Int)) : Outcome :=
  let rows := rowsOf resolve bodies
  if rows.any Row.isValid then .Assembled rows
  else .Failed (aggregateErrors resolve bodies)

/-- Modelled from the spec: heliographic coordinate frames (section 3). -/
inductive Frame where
  | Carrington
  | Stonyhurst
  deriving DecidableEq, Repr

/-- Modelled from the spec: a stored reference point, canonically in the
Carrington frame (section 3). -/
structure Reference where
  lon : ℚ
  lat : ℚ
  vsw : ℚ
  deriving DecidableEq, Repr

/-- Modelled from the spec: `setReference(lon, lat, frame, vsw)` of the
Constellation Engine (section 4.3): validates the coordinates against the
frame's valid range (Carrington lon ∈ [0,360), Stonyhurst lon ∈ [-180,180],
lat ∈ [-90,90] for both), converts a Stonyhurst point to Carrington through
the frame-transform collaborator `toCarr` before storing, and fails with
`InvalidCoordinateError` out of range.  The `backmapping` module holding it
is not under the checked-in sources. -/
def setReference (toCarr : ℚ → ℚ → ℚ × ℚ) (frame : Frame)
    (lon lat vsw : ℚ) : Except EngineError Reference :=
  match frame with
  | .Stonyhurst =>
      if -180 ≤ lon ∧ lon ≤ 180 ∧ -90 ≤ lat ∧ lat ≤ 90 then
        let c := toCarr lon lat
        .ok ⟨c.1, c.2, vsw⟩
      else .error .invalidCoordinateError
  | .Carrington =>
      if 0 ≤ lon ∧ lon < 360 ∧ -90 ≤ lat ∧ lat ≤ 90 then
        .ok ⟨lon, lat, vsw⟩
      else .error .invalidCoordinateError

/-- Modelled from the spec: phases of the Constellation Engine's state
machine (section 4.3). -/
inductive Phase where
  | started
  | resolving
  | modeling
  | assembled
  | failed
  deriving DecidableEq, Repr

/-- Modelled from the spec: the Constellation Engine's state: the validated
inputs (ephemeris adapter, ordered body list) and the current phase
(section 4.3). -/
structure Engine where
  resolve : String → Option Position
  bodies : List (String × Int)
  phase : Phase

/-- Modelled from the spec: running `compute()` on an engine state: the
outcome is recomputed from the stored inputs, and the phase advances to
`assembled` or `failed`; the inputs themselves are untouched
(sections 4.3 and 8).  The `backmapping` module holding it is not under
the checked-in sources. -/
def Engine.computeRun (e : Engine) : Outcome × Engine :=
  let out := compute e.resolve e.bodies
  (out, { e with phase := match out with
                          | .Assembled _ => .assembled
                          | .Failed _ => .failed })

/-! UI-layer definitions, translated from `app.py` (Python string semantics
embedded over `List Char`). -/

/-- Python `s.split(',')` on a character list: splits at every comma,
keeping empty pieces (so the result always has one more piece than there
are commas). -/
def pySplitChars : List Char → List Char → List (List Char)
  | [], acc => [acc.reverse]
  | c :: rest, acc =>
      if c = ',' then acc.reverse :: pySplitChars rest []
      else pySplitChars rest (c :: acc)

/-- Python `s.split(',')` on a string. -/
def pySplit (s : String) : List String :=
  (pySplitChars s.data []).map fun cs => String.mk cs

/-- Python `s.strip()`: removes whitespace from both ends. -/
def pyStrip (s : String) : String :=
  String.mk (((s.data.dropWhile Char.isWhitespace).reverse.dropWhile
    Char.isWhitespace).reverse)

/-- The numeric value of a run of decimal digits; `none` when the run is
empty or holds a non-digit. -/
def digitsVal : List Char → Option Nat
  | [] => none
  | [c] => if c.isDigit then some (c.toNat - 48) else none
  | c :: rest =>
      if c.isDigit then
        (digitsVal rest).map fun n => (c.toNat - 48) * 10 ^ rest.length + n
      else none

/-- Python `int(s)` on an already-stripped string: optional sign followed
by decimal digits; anything else raises (modelled as `none`). -/
def pyInt (s : String) : Option Int :=
  match s.data with
  | '-' :: rest => (digitsVal rest).map fun n => -(n : Int)
  | '+' :: rest => (digitsVal rest).map fun n => (n : Int)
  | cs => (digitsVal cs).map fun n => (n : Int)

/-- Fraction value of the digits after the decimal point:
`frac ['2','5'] = 25/100`. -/
def fracVal (cs : List Char) : Option ℚ :=
  match cs with
  | [] => some 0
  | _ => (digitsVal cs).map fun n => (n : ℚ) / 10 ^ cs.length

/-- Python `float(s)` on an unsigned mantissa `digits[.digits]` (at least
one digit overall), as an exact rational. -/
def pyFloatMantissa (cs : List Char) : Option ℚ :=
  match cs.splitOn '.' with
  | [intPart] => (digitsVal intPart).map fun n => (n : ℚ)
  | [[], fracPart] => (digitsVal fracPart).map fun n => (n : ℚ) / 10 ^ fracPart.length
  | [intPart, fracPart] =>
      match digitsVal intPart, fracVal fracPart with
      | some n, some f => some ((n : ℚ) + f)
      | _, _ => none
  | _ => none

/-- Python `float(s)` restricted to plain decimal literals with an optional
sign (the forms the `app.py` text input is meant to carry); exact rational
value; parse failure raises (modelled as `none`). -/
def pyFloat (s : String) : Option ℚ :=
  match (pyStrip s).data with
  | '-' :: rest => (pyFloatMantissa rest).map fun q => -q
  | '+' :: rest => pyFloatMantissa rest
  | cs => pyFloatMantissa cs

/-- Python `int(x)` on a float: truncation toward zero (on a normalized
rational, the numerator divided by the denominator rounding toward
zero). -/
def pyTrunc (q : ℚ) : Int :=
  q.num.tdiv q.den

/-- `app.py` lines 151 and 153: `body_list = full_body_list.split(',')`
then `body_list = [body_list[i].strip() for i in range(len(body_list))]`. -/
def body_list (full_body_list : String) : List String :=
  (pySplit full_body_list).map pyStrip

/-- Evaluates an effectful map over a list in the `Option` monad: the whole
list is produced only when every element parses (a Python comprehension
raising on the first bad element). -/
def optTraverse {α β : Type} (f : α → Option β) : List α → Option (List β)
  | [] => some []
  | a :: rest =>
      match f a, optTraverse f rest with
      | some b, some bs => some (b :: bs)
      | _, _ => none

/-- `app.py` lines 152 and 154: `vsw_list = vsw_list.split(',')` then
`vsw_list = [int(vsw_list[i].strip()) for i in range(len(vsw_list))]`;
a token `int()` rejects raises, modelled as `none` for the whole list. -/
def vsw_list (s : String) : Option (List Int) :=
  optTraverse (fun t => pyInt (pyStrip t)) (pySplit s)

/-- `app.py` line 165: the two parsed lists are handed to
`HeliosphericConstellation(date, body_list, vsw_list, ...)` unchanged —
no cross-validation of their lengths happens in between. -/
def uiEngineArgs (full_body_list vsw_text : String) :
    List String × Option (List Int) :=
  (body_list full_body_list, vsw_list vsw_text)

/-- The UI inputs feeding the reference-point block of `app.py`
lines 121-140: the `plot_reference` checkbox, the coordinate-system radio
button, the two sliders, and the wind-speed text input. -/
structure RefInputs where
  plot_reference : Bool
  reference_sys : Frame
  slider_long : Int
  slider_lat : Int
  vsw_text : String

/-- The reference arguments `app.py` passes on: `reference_long` and
`reference_lat` to `HeliosphericConstellation` (line 165) and
`reference_vsw` to `c.plot` (line 175).  Translated from lines 124-140:
the sliders feed the chosen frame (a Stonyhurst pair goes through the
frame transform `toCarr`, lines 131-135), line 137 sets
`reference_vsw = int(float(text))` unconditionally, and lines 138-140
overwrite `reference_long`/`reference_lat` with `None` when the
`plot_reference` checkbox is off. -/
def referenceArgs (toCarr : ℚ → ℚ → ℚ × ℚ) (inp : RefInputs) :
    Option ℚ × Option ℚ × Option Int :=
  let coords : ℚ × ℚ :=
    match inp.reference_sys with
    | .Carrington => ((inp.slider_long : ℚ), (inp.slider_lat : ℚ))
    | .Stonyhurst => toCarr (inp.slider_long : ℚ) (inp.slider_lat : ℚ)
  let reference_vsw : Option Int := (pyFloat inp.vsw_text).map pyTrunc
  if inp.plot_reference then (some coords.1, some coords.2, reference_vsw)
  else (none, none, reference_vsw)

/-- A concrete deterministic sample adapter: resolves `Earth`, fails on
every other name. -/
def sampleResolve : String → Option Position :=
  fun s => if s = "Earth" then some ⟨1, 100, 0⟩ else none

/-- A sample input list holding one resolvable and one unresolvable body. -/
def sampleBodies : List (String × Int) := [("Earth", 400), ("BadBody", 400)]

/-- A sample input list holding the same body name twice. -/
def dupBodies : List (String × Int) := [("Earth", 400), ("Earth", 400)]

/-! Theorems settling the claims. -/

/-- Helper: when every body of the list fails to resolve, the assembled
rows are all failure markers, no row is valid, and the aggregate error
names every body in input order. -/
theorem aggregate_allFailed (resolve : String → Option Position) :
    ∀ bodies : List (String × Int), (∀ p ∈ bodies, resolve p.1 = none) →
      (rowsOf resolve bodies).any Row.isValid = false ∧
      aggregateErrors resolve bodies = bodies.map Prod.fst := by
  intro bodies
  induction bodies with
  | nil => intro _; simp [rowsOf, aggregateErrors]
  | cons p rest ih =>
      intro h
      have hp := h p (List.mem_cons_self p rest)
      have hrest := ih fun q hq => h q (List.mem_cons_of_mem p hq)
      simp only [rowsOf, aggregateErrors, List.map_cons, List.any_cons,
        List.filterMap_cons, hp] at hrest ⊢
      simp [Row.isValid, hrest.1, hrest.2]

/-- Claim C1: for every pair of longitudes in [0,360), the Constellation
Engine's longitudinal separation is the shortest-arc (wrap-aware)
difference: separation(10, 350) = 20 and not 340, separation is symmetric,
and the result always lies in [0,180]. -/
theorem spec_C1 :
    separation 10 350 = 20 ∧
    (∀ a b : ℚ, separation a b = separation b a) ∧
    (∀ a b : ℚ, 0 ≤ a → a < 360 → 0 ≤ b → b < 360 →
      0 ≤ separation a b ∧ separation a b ≤ 180) := by
  refine ⟨by norm_num [separation], fun a b => ?_, fun a b ha ha' hb hb' => ?_⟩
  · rw [separation, separation, abs_sub_comm]
  · have habs : |a - b| < 360 := abs_lt.mpr ⟨by linarith, by linarith⟩
    have h0 : 0 ≤ |a - b| := abs_nonneg _
    refine ⟨le_min h0 (by linarith), ?_⟩
    rcases le_or_lt |a - b| 180 with h | h
    · exact le_trans (min_le_left _ _) h
    · exact le_trans (min_le_right _ _) (by linarith)

/-- Witness for C1 at a = 20, b = 340. -/
theorem spec_C1_w : 0 ≤ separation 20 340 ∧ separation 20 340 ≤ 180 :=
  spec_C1.2.2 20 340 (by norm_num) (by norm_num) (by norm_num) (by norm_num)

/-- Claim C2: the Parker Spiral Model's longitude at radius r equals
λ₀ + (Ω/v) * (r₀ - r) with Ω a fixed constant, and for every wind speed
v > 0 the spiral longitude is strictly monotonic in radius (no
reversals). -/
theorem spec_C2 :
    (∀ v r0 lam0 r : ℚ, parkerLon v r0 lam0 r = lam0 + (Omega / v) * (r0 - r)) ∧
    (∀ v r0 lam0 : ℚ, 0 < v → ∀ r1 r2 : ℚ, r1 < r2 →
      parkerLon v r0 lam0 r2 < parkerLon v r0 lam0 r1) := by
  refine ⟨fun _ _ _ _ => rfl, fun v r0 lam0 hv r1 r2 h12 => ?_⟩
  have hO : (0 : ℚ) < Omega := by norm_num [Omega]
  have hOv : 0 < Omega / v := div_pos hO hv
  have hm := mul_lt_mul_of_pos_left (sub_lt_sub_left h12 r0) hOv
  simp only [parkerLon]
  linarith

/-- Witness for C2 at v = 400, r₀ = 1, λ₀ = 20, radii 1/4 < 1/2. -/
theorem spec_C2_w : parkerLon 400 1 20 (1/2) < parkerLon 400 1 20 (1/4) :=
  spec_C2.2 400 1 20 (by norm_num) (1/4) (1/2) (by norm_num)

/-- Claim C3: for every wind speed v ≤ 0 the Parker Spiral Model fails
with InvalidSolarWindSpeedError, and it never silently clamps: any
successfully built field line carries exactly the supplied speed, which is
positive. -/
theorem spec_C3 :
    (∀ r0 lam0 v : ℚ, v ≤ 0 →
      buildFieldLine r0 lam0 v = .error .invalidSolarWindSpeedError) ∧
    (∀ (r0 lam0 v : ℚ) (fl : FieldLine),
      buildFieldLine r0 lam0 v = .ok fl → fl.vsw = v ∧ 0 < v) := by
  constructor
  · intro r0 lam0 v hv
    simp [buildFieldLine, hv]
  · intro r0 lam0 v fl h
    simp only [buildFieldLine] at h
    split at h
    · exact absurd h (by simp)
    · rename_i hv
      injection h with h2
      subst h2
      exact ⟨rfl, lt_of_not_le hv⟩

/-- Witness for C3 at v = 0 (rejected) and v = 400 (accepted, speed kept). -/
theorem spec_C3_w :
    buildFieldLine 1 20 0 = .error .invalidSolarWindSpeedError ∧
    (FieldLine.vsw ⟨1, 20, 400⟩ = 400 ∧ (0 : ℚ) < 400) :=
  ⟨spec_C3.1 1 20 0 (by norm_num),
   spec_C3.2 1 20 400 ⟨1, 20, 400⟩ (by norm_num [buildFieldLine])⟩

/-- Claim C6: normalizing λ + 360k for any integer k yields the same
canonical value as normalizing λ, and that value lies in [0,360). -/
theorem spec_C6 :
    ∀ (lam : ℚ) (k : ℤ),
      normalizeLon (lam + 360 * k) = normalizeLon lam ∧
      0 ≤ normalizeLon lam ∧ normalizeLon lam < 360 := by
  intro lam k
  have h360 : (360 : ℚ) * (lam / 360) = lam := by field_simp
  refine ⟨?_, ?_, ?_⟩
  · have hdiv : (lam + 360 * k) / 360 = lam / 360 + k := by
      field_simp
      ring
    simp only [normalizeLon, hdiv, Int.floor_add_int]
    push_cast
    ring
  · have hfl := Int.floor_le (lam / 360)
    have h2 : (360 : ℚ) * ⌊lam / 360⌋ ≤ 360 * (lam / 360) :=
      mul_le_mul_of_nonneg_left hfl (by norm_num)
    simp only [normalizeLon]
    linarith
  · have hfl := Int.lt_floor_add_one (lam / 360)
    have h2 : (360 : ℚ) * (lam / 360) < 360 * (⌊lam / 360⌋ + 1) :=
      mul_lt_mul_of_pos_left hfl (by norm_num)
    simp only [normalizeLon]
    push_cast at h2
    linarith

/-- Claim C4: when at least one body resolves, compute() reaches
Assembled with one row per input body — a failure-marker row (not a silent
drop) at the position of every unresolvable body; compute() reaches Failed
only when zero bodies resolve, and then carries an aggregate error listing
every per-body failure. -/
theorem spec_C4 :
    ∀ (resolve : String → Option Position) (bodies : List (String × Int)),
      ((∃ p ∈ bodies, (resolve p.1).isSome) →
        compute resolve bodies = .Assembled (rowsOf resolve bodies) ∧
        (rowsOf resolve bodies).length = bodies.length ∧
        (∀ (i : ℕ) (b : String) (v : Int), bodies[i]? = some (b, v) →
          resolve b = none →
          (rowsOf resolve bodies)[i]? = some (Row.failed b)) ∧
        (∀ (i : ℕ) (b : String) (v : Int) (pos : Position),
          bodies[i]? = some (b, v) → resolve b = some pos →
          (rowsOf resolve bodies)[i]? = some (Row.valid b pos v))) ∧
      ((∀ p ∈ bodies, resolve p.1 = none) →
        compute resolve bodies = .Failed (bodies.map Prod.fst)) := by
  intro resolve bodies
  constructor
  · rintro ⟨p, hp, hs⟩
    obtain ⟨pos, hpos⟩ := Option.isSome_iff_exists.mp hs
    have hmem : Row.valid p.1 pos p.2 ∈ rowsOf resolve bodies := by
      simp only [rowsOf]
      exact List.mem_map.mpr ⟨p, hp, by simp [hpos]⟩
    have hany : (rowsOf resolve bodies).any Row.isValid = true :=
      List.any_eq_true.mpr ⟨_, hmem, rfl⟩
    refine ⟨by simp [compute, hany], by simp [rowsOf], ?_, ?_⟩
    · intro i b v hbi hres
      simp [rowsOf, List.getElem?_map, hbi, hres]
    · intro i b v pos hbi hres
      simp [rowsOf, List.getElem?_map, hbi, hres]
  · intro h
    have hall := aggregate_allFailed resolve bodies h
    simp [compute, hall.1, hall.2]

/-- Witness for C4: Earth resolves, BadBody does not — Assembled, two
rows, a valid row first and a failure marker second; with every body
unresolvable the outcome is Failed listing both names. -/
theorem spec_C4_w :
    (compute sampleResolve sampleBodies = .Assembled (rowsOf sampleResolve sampleBodies) ∧
      (rowsOf sampleResolve sampleBodies).length = 2 ∧
      (rowsOf sampleResolve sampleBodies)[0]? = some (Row.valid "Earth" ⟨1, 100, 0⟩ 400) ∧
      (rowsOf sampleResolve sampleBodies)[1]? = some (Row.failed "BadBody")) ∧
    compute (fun _ => none) sampleBodies = .Failed ["Earth", "BadBody"] := by
  have h1 := (spec_C4 sampleResolve sampleBodies).1
    ⟨("Earth", 400), by simp [sampleBodies], by simp [sampleResolve]⟩
  have h2 := (spec_C4 (fun _ => none) sampleBodies).2 fun _ _ => rfl
  exact ⟨⟨h1.1, h1.2.1,
    h1.2.2.2 0 "Earth" 400 ⟨1, 100, 0⟩ (by simp [sampleBodies])
      (by simp [sampleResolve]),
    h1.2.2.1 1 "BadBody" 400 (by simp [sampleBodies])
      (by simp [sampleResolve])⟩, h2⟩

/-- Claim C7: the result table's rows appear in exactly the input order,
one row per input entry with the entry's body name, with no reordering and
no deduplication (duplicate names give independent rows). -/
theorem spec_C7 :
    ∀ (resolve : String → Option Position) (bodies : List (String × Int)),
      (rowsOf resolve bodies).length = bodies.length ∧
      ∀ (i : ℕ) (b : String) (v : Int), bodies[i]? = some (b, v) →
        ((rowsOf resolve bodies)[i]?).map Row.body = some b := by
  intro resolve bodies
  refine ⟨by simp [rowsOf], fun i b v hbi => ?_⟩
  simp only [rowsOf, List.getElem?_map, hbi, Option.map_some]
  cases hres : resolve b <;> simp [Row.body, hres]

/-- Witness for C7 at a duplicated body list: both occurrences appear as
independent rows, in input order. -/
theorem spec_C7_w :
    (rowsOf sampleResolve dupBodies).length = 2 ∧
    ((rowsOf sampleResolve dupBodies)[0]?).map Row.body = some "Earth" ∧
    ((rowsOf sampleResolve dupBodies)[1]?).map Row.body = some "Earth" :=
  ⟨(spec_C7 sampleResolve dupBodies).1,
   (spec_C7 sampleResolve dupBodies).2 0 "Earth" 400 (by simp [dupBodies]),
   (spec_C7 sampleResolve dupBodies).2 1 "Earth" 400 (by simp [dupBodies])⟩

/-- Claim C8: with a deterministic ephemeris adapter the engine's
compute() is deterministic — two engine states holding the same inputs
yield the same table — and idempotent: running compute() again on the
state left by a first run yields the identical table. -/
theorem spec_C8 :
    (∀ e₁ e₂ : Engine, e₁.resolve = e₂.resolve → e₁.bodies = e₂.bodies →
      (Engine.computeRun e₁).1 = (Engine.computeRun e₂).1) ∧
    (∀ e : Engine,
      (Engine.computeRun (Engine.computeRun e).2).1 = (Engine.computeRun e).1) := by
  constructor
  · intro e₁ e₂ hr hb
    simp [Engine.computeRun, hr, hb]
  · intro e
    simp [Engine.computeRun]

/-- Witness for C8: two engines with the same inputs but different phases
produce the same outcome. -/
theorem spec_C8_w :
    (Engine.computeRun ⟨sampleResolve, sampleBodies, .started⟩).1 =
      (Engine.computeRun ⟨sampleResolve, sampleBodies, .assembled⟩).1 :=
  spec_C8.1 ⟨sampleResolve, sampleBodies, .started⟩
    ⟨sampleResolve, sampleBodies, .assembled⟩ rfl rfl

/-- Claim C5: setReference stores a Stonyhurst reference point only after
converting it to Carrington through the frame transform, and fails with
InvalidCoordinateError whenever the supplied coordinates are outside the
frame's valid range (Carrington lon ∈ [0,360), Stonyhurst lon ∈
[-180,180], lat ∈ [-90,90] for both). -/
theorem spec_C5 :
    ∀ (toCarr : ℚ → ℚ → ℚ × ℚ) (lon lat vsw : ℚ),
      ((-180 ≤ lon ∧ lon ≤ 180 ∧ -90 ≤ lat ∧ lat ≤ 90) →
        setReference toCarr .Stonyhurst lon lat vsw =
          .ok ⟨(toCarr lon lat).1, (toCarr lon lat).2, vsw⟩) ∧
      (¬(-180 ≤ lon ∧ lon ≤ 180 ∧ -90 ≤ lat ∧ lat ≤ 90) →
        setReference toCarr .Stonyhurst lon lat vsw =
          .error .invalidCoordinateError) ∧
      (¬(0 ≤ lon ∧ lon < 360 ∧ -90 ≤ lat ∧ lat ≤ 90) →
        setReference toCarr .Carrington lon lat vsw =
          .error .invalidCoordinateError) := by
  intro toCarr lon lat vsw
  refine ⟨fun h => ?_, fun h => ?_, fun h => ?_⟩ <;>
    simp [setReference, h]

/-- Witness for C5 with the transform λ y z, (y + 57, z): an in-range
Stonyhurst point (20, 0) is stored converted; a latitude of 150 is
rejected in both frames. -/
theorem spec_C5_w :
    setReference (fun y z => (y + 57, z)) .Stonyhurst 20 0 400 =
      .ok ⟨77, 0, 400⟩ ∧
    setReference (fun y z => (y + 57, z)) .Stonyhurst 20 150 400 =
      .error .invalidCoordinateError ∧
    setReference (fun y z => (y + 57, z)) .Carrington 20 150 400 =
      .error .invalidCoordinateError := by
  refine ⟨?_, ?_, ?_⟩
  · have h := (spec_C5 (fun y z => (y + 57, z)) 20 0 400).1
      ⟨by norm_num, by norm_num, by norm_num, by norm_num⟩
    rw [h]
    norm_num
  · exact (spec_C5 (fun y z => (y + 57, z)) 20 150 400).2.1 (by norm_num)
  · exact (spec_C5 (fun y z => (y + 57, z)) 20 150 400).2.2 (by norm_num)

/-- Helper: an option-traversal succeeds with a list of exactly the input
list's length. -/
theorem optTraverse_length {α β : Type} (f : α → Option β) :
    ∀ (l : List α) (r : List β), optTraverse f l = some r → r.length = l.length := by
  intro l
  induction l with
  | nil =>
      intro r h
      simp only [optTraverse] at h
      cases h
      rfl
  | cons a rest ih =>
      intro r h
      simp only [optTraverse] at h
      cases hfa : f a <;> rw [hfa] at h
      · exact absurd h (by simp)
      · cases hrest : optTraverse f rest <;> rw [hrest] at h
        · exact absurd h (by simp)
        · cases h
          simp [ih _ hrest]

/-- Claim C9: the UI boundary performs no cross-validation of list
lengths: the body string and the wind-speed string are split and parsed
independently — each output list's length is its own string's comma-split
length — and the pair is handed to HeliosphericConstellation unchanged, so
7 bodies with 8 speeds reach the engine without any UI-layer error. -/
theorem spec_C9 :
    (∀ (b v : String) (l : List Int), vsw_list v = some l →
      (body_list b).length = (pySplit b).length ∧
      l.length = (pySplit v).length) ∧
    uiEngineArgs "STEREO A, Earth, BepiColombo, PSP, Solar Orbiter, Mars, Venus"
        "400, 400, 400, 400, 400, 400, 400, 400" =
      (["STEREO A", "Earth", "BepiColombo", "PSP", "Solar Orbiter", "Mars", "Venus"],
       some [400, 400, 400, 400, 400, 400, 400, 400]) := by
  constructor
  · intro b v l h
    exact ⟨by simp [body_list], optTraverse_length _ _ _ h⟩
  · rfl

/-- Witness for C9 at a two-body, three-speed input: parsing succeeds and
each length matches its own split only. -/
theorem spec_C9_w :
    (body_list "Earth, Mars").length = (pySplit "Earth, Mars").length ∧
    ([400, 400, 400] : List Int).length = (pySplit "400, 400, 400").length :=
  spec_C9.1 "Earth, Mars" "400, 400, 400" [400, 400, 400] rfl

/-- Claim C10: with the plot-reference checkbox off, the reference
longitude and latitude passed to HeliosphericConstellation are both None
while the reference wind speed is still parsed from the text input and
passed to plot(); in every case that speed is int(float(text)), a
truncation to an integer. -/
theorem spec_C10 :
    ∀ (toCarr : ℚ → ℚ → ℚ × ℚ) (inp : RefInputs),
      (inp.plot_reference = false →
        referenceArgs toCarr inp =
          (none, none, (pyFloat inp.vsw_text).map pyTrunc)) ∧
      (referenceArgs toCarr inp).2.2 = (pyFloat inp.vsw_text).map pyTrunc := by
  intro toCarr inp
  constructor
  · intro h
    simp [referenceArgs, h]
  · by_cases h : inp.plot_reference <;> simp [referenceArgs, h]

/-- Witness for C10: checkbox off and text `400` — the engine gets no
reference coordinates while plot() still gets the parsed speed 400. -/
theorem spec_C10_w :
    referenceArgs (fun y z => (y, z)) ⟨false, .Carrington, 20, 0, "400"⟩ =
      (none, none, some 400) := by
  have h := (spec_C10 (fun y z => (y, z))
    ⟨false, .Carrington, 20, 0, "400"⟩).1 rfl
  rw [h]
  decide

end SolarMach
